import Mathlib

/-!
Shallow embedding of the receipt-ingestion pipeline of
src/expense-tracker-service/src/controllers/receiptController.js,
together with proofs about the claims of the specification.

JavaScript values that flow through the OCR payload are modelled by a
small value type with JS truthiness; machine floats are modelled by
rationals (`parseFloat` that fails yields `none`, the model of NaN);
the filesystem is a list of existing paths; the database write and the
host date parser are environment parameters.
-/

namespace Receipt

/-- A JS-like value for a field of the OCR JSON payload: absent
(`undefined`), a number, or a string. -/
inductive JVal where
  | undef
  | vnum (q : ℚ)
  | vstr (s : String)
  deriving DecidableEq, Repr

/-- JS truthiness: `undefined`, `0` and `""` are falsy. -/
def truthy : JVal → Bool
  | .undef => false
  | .vnum q => q != 0
  | .vstr s => s != ""

/-- JS `a || b`. -/
def jsOr (a b : JVal) : JVal := if truthy a then a else b

/-- Numeric value of a decimal digit character. -/
def digitVal (c : Char) : ℕ := c.toNat - 48

/-- Value of a list of decimal digit characters, most significant first. -/
def natFromDigits (cs : List Char) : ℕ := cs.foldl (fun a c => 10 * a + digitVal c) 0

/-- JS `parseFloat` on a character list: skip leading spaces, optional
sign, longest run of digits, optional fraction; `none` models NaN. -/
def parseDecList (cs : List Char) : Option ℚ :=
  let cs0 := cs.dropWhile (fun c => c == ' ')
  let p : ℚ × List Char :=
    match cs0 with
    | '-' :: r => (-1, r)
    | '+' :: r => (1, r)
    | _ => (1, cs0)
  let ip := p.2.takeWhile Char.isDigit
  let rest := p.2.dropWhile Char.isDigit
  let fp :=
    match rest with
    | '.' :: r => r.takeWhile Char.isDigit
    | _ => []
  if ip.isEmpty && fp.isEmpty then none
  else some (p.1 * ((natFromDigits ip : ℚ) + (natFromDigits fp : ℚ) / (10 : ℚ) ^ fp.length))

/-- JS `parseFloat` applied to a payload value (numbers stringify and
re-parse to themselves; `parseFloat(undefined)` is NaN). -/
def parseFloat : JVal → Option ℚ
  | .undef => none
  | .vnum q => some q
  | .vstr s => parseDecList s.data

/-- A JS `Date`: either a valid instant (epoch milliseconds) or the
Invalid Date produced by an unparseable argument. -/
inductive JSDate where
  | valid (ms : ℤ)
  | invalid
  deriving DecidableEq, Repr

/-- Raw OCR payload fields read by the controller. -/
structure OCRData where
  amount_paid : JVal
  total : JVal
  merchant : JVal
  date : JVal
  category : JVal
  items : Option (List String)
  category_source : Option String
  deriving DecidableEq, Repr

/-- The OCR payload with every field absent. -/
def emptyOCR : OCRData :=
  { amount_paid := .undef, total := .undef, merchant := .undef, date := .undef,
    category := .undef, items := none, category_source := none }

/-- Modelled from the spec: the closed expense-category enumeration of
src/constants/transactionSubclasses.js (`expenseSubclasses`) is not
among the provided sources.  The spec fixes that `groceries` is a member
of the expense enumeration and that `other_expenses` is the fixed
fallback category. -/
def expenseSubclasses : List String := ["groceries", "other_expenses"]

/-- Receipt-provenance block attached to a receipt-derived transaction.
The last five fields are added by the orchestrator after conversion. -/
structure ReceiptData where
  merchant : JVal
  items : List String
  ocrConfidence : String
  extractedAt : ℤ
  originalFilename : Option String := none
  uploadedFilename : Option String := none
  fileSize : Option ℕ := none
  filePath : Option String := none
  processedAt : Option ℤ := none
  deriving DecidableEq, Repr

/-- The transaction shape built by the controller. -/
structure Transaction where
  userId : String
  type : String
  amount : Option ℚ
  description : String
  date : JSDate
  paymentMethod : String
  subclass : String
  receiptData : Option ReceiptData
  deriving DecidableEq, Repr

/-- Outcome of `transaction.save()`: resolve, or reject with a JS
error object (mongoose validation rejections carry name
`ValidationError`). -/
inductive SaveOutcome where
  | ok
  | err (name : String) (message : String)
  deriving DecidableEq, Repr

/-- Host environment: the JS date parser, the current instant, the
ObjectId validity test and the database write, all opaque to the
controller code. -/
structure Env where
  parseDate : String → Option ℤ
  now : ℤ
  isValidObjectId : String → Bool
  save : Transaction → SaveOutcome

/-- Rendering of a payload value inside a template string. -/
def jvalToDisplay : JVal → String
  | .undef => "undefined"
  | .vnum q => toString q
  | .vstr s => s

/-- Behaviour of `new Date(x)` for the values that reach it: a number is an epoch
instant, a string goes through the host date parser. -/
def newDate (env : Env) : JVal → JSDate
  | .undef => .invalid
  | .vnum q => .valid (q.num.tdiv q.den)
  | .vstr s =>
    match env.parseDate s with
    | some t => .valid t
    | none => .invalid

/-- Embedding of `convertOCRToTransaction(ocrData, userId)` of receiptController.js:
pure normalization of an OCR payload into the transaction shape. -/
def convertOCRToTransaction (env : Env) (ocrData : OCRData) (userId : String) : Transaction :=
  { userId := userId
    type := "expense"
    amount := parseFloat (jsOr (jsOr ocrData.amount_paid ocrData.total) (.vnum 0))
    description := "Receipt from " ++ jvalToDisplay (jsOr ocrData.merchant (.vstr "Unknown Merchant"))
    date := newDate env (jsOr ocrData.date (.vnum (env.now : ℚ)))
    paymentMethod := "other"
    subclass :=
      match ocrData.category with
      | .vstr s => if s != "" && expenseSubclasses.contains s then s else "other_expenses"
      | _ => "other_expenses"
    receiptData := some
      { merchant := ocrData.merchant
        items := ocrData.items.getD []
        ocrConfidence :=
          match ocrData.category_source with
          | some s => if s == "" then "unknown" else s
          | none => "unknown"
        extractedAt := env.now } }

/-- The multer file descriptor (`req.file`). -/
structure FileInfo where
  path : String
  filename : String
  originalname : String
  size : ℕ
  deriving DecidableEq, Repr

/-- Decimal digit character of `n % 10`. -/
def digitChar (n : ℕ) : Char := Char.ofNat (48 + n % 10)

/-- Fuel-driven digit accumulator (structural recursion so that the
kernel can evaluate it). -/
def natDigitsAux : ℕ → ℕ → List Char → List Char
  | 0, _, acc => acc
  | fuel + 1, n, acc =>
    if n < 10 then digitChar n :: acc
    else natDigitsAux fuel (n / 10) (digitChar n :: acc)

/-- Decimal digit characters of a natural number, most significant
first (the rendering of the subprocess exit code in a template
string). -/
def natDigits (n : ℕ) : List Char := natDigitsAux (n + 1) n []

/-- Decimal string of a natural number. -/
def natStr (n : ℕ) : String := ⟨natDigits n⟩

/-- Observable behaviour of one run of the external OCR subprocess:
failure to launch, a non-zero exit with captured stderr, exit 0 with
stdout that JSON.parse rejects, or exit 0 with a parsed payload. -/
inductive OCROutcome where
  | launchErrorEvent (msg : String)
  | exitNonZero (code : ℕ) (stderr : String)
  | stdoutUnparseable (msg : String)
  | parsed (data : OCRData)
  deriving DecidableEq, Repr

/-- A JS error object as seen by the catch block: `name` and
`message`. -/
structure JSError where
  name : String
  message : String
  deriving DecidableEq, Repr

/-- Embedding of `runOCRScript(imagePath)` of receiptController.js: the promise
settles according to the subprocess outcome, with the exact rejection
messages built there. -/
def runOCRScript : OCROutcome → Except JSError OCRData
  | .launchErrorEvent m => .error ⟨"Error", "Failed to start Python OCR process: " ++ m⟩
  | .exitNonZero code stderr =>
      .error ⟨"Error", "Python OCR script failed with code " ++ natStr code ++ ": " ++ stderr⟩
  | .stdoutUnparseable m => .error ⟨"Error", "Failed to parse OCR output: " ++ m⟩
  | .parsed d => .ok d

/-- Matcher for one position of the substring scan: does `s` begin
with `t`? -/
def startsWithL : List Char → List Char → Bool
  | _, [] => true
  | [], _ :: _ => false
  | a :: s, b :: t => a == b && startsWithL s t

/-- Substring occurrence test on character lists. -/
def hasSubstrL : List Char → List Char → Bool
  | [], t => t.isEmpty
  | a :: s, t => startsWithL (a :: s) t || hasSubstrL s t

/-- JS `String.prototype.includes`. -/
def strContains (s pat : String) : Bool := hasSubstrL s.data pat.data

/-- HTTP response shape (status, `success`, `message`). -/
structure Response where
  status : ℕ
  success : Bool
  message : String
  deriving DecidableEq, Repr

/-- Result of one ingestion call: the response, the surviving
filesystem paths, and the transactions persisted during the call. -/
structure PipelineResult where
  resp : Response
  fs : List String
  saved : List Transaction
  deriving DecidableEq, Repr

/-- The catch block's best-effort cleanup: `fs.unlinkSync(req.file.path)`
guarded by `req.file && req.file.path` (a deletion error is swallowed,
which `List.erase` on an absent path models). -/
def cleanupFile (file : Option FileInfo) (fs : List String) : List String :=
  match file with
  | some f => if f.path != "" then fs.erase f.path else fs
  | none => fs

/-- The catch block of `processReceiptAndCreateTransaction`: delete the
uploaded file, then dispatch on the error's message and name, in that
order. -/
def handleCatch (e : JSError) (file : Option FileInfo) (fs : List String) : PipelineResult :=
  let fs2 := cleanupFile file fs
  if strContains e.message "Python script failed" then
    ⟨⟨500, false, "Receipt OCR processing failed"⟩, fs2, []⟩
  else if e.name == "ValidationError" then
    ⟨⟨400, false, "Failed to create transaction from receipt data"⟩, fs2, []⟩
  else
    ⟨⟨500, false, "Internal server error while processing receipt"⟩, fs2, []⟩

/-- The transaction actually handed to `transaction.save()`: the
converted payload whose provenance block is extended with the file
metadata (`transactionData.receiptData = { ...transactionData.receiptData, ... }`;
the converter always supplies the block, so mapping over the option is
exact on every reachable input). -/
def buildTransaction (env : Env) (d : OCRData) (u : String) (f : FileInfo) : Transaction :=
  let t0 := convertOCRToTransaction env d u
  { t0 with
    receiptData := t0.receiptData.map (fun rd =>
      { rd with
        originalFilename := some f.originalname
        uploadedFilename := some f.filename
        fileSize := some f.size
        filePath := some f.path
        processedAt := some env.now }) }

/-- Embedding of `processReceiptAndCreateTransaction(req, res)` of
receiptController.js, as a function of the request fields, the
subprocess outcome and the ambient filesystem. -/
def processReceiptAndCreateTransaction (env : Env) (userId : Option String)
    (file : Option FileInfo) (ocr : OCROutcome) (fs : List String) : PipelineResult :=
  match userId with
  | none => ⟨⟨400, false, "Valid user ID is required"⟩, fs, []⟩
  | some u =>
    if u == "" || !env.isValidObjectId u then
      ⟨⟨400, false, "Valid user ID is required"⟩, fs, []⟩
    else
      match file with
      | none => ⟨⟨400, false, "No receipt file uploaded"⟩, fs, []⟩
      | some f =>
        match runOCRScript ocr with
        | .error e => handleCatch e file fs
        | .ok ocrResult =>
          if !truthy ocrResult.amount_paid && !truthy ocrResult.total then
            ⟨⟨400, false, "Could not extract amount from receipt"⟩, fs, []⟩
          else
            let t := buildTransaction env ocrResult u f
            match env.save t with
            | .ok =>
              ⟨⟨201, true, "Receipt successfully processed and expense transaction created"⟩,
                fs, [t]⟩
            | .err n m => handleCatch ⟨n, m⟩ file fs

/-- A persisted transaction document as the history query sees it:
owner, creation instant (mongoose timestamp) and the optional
receipt-provenance block (`$exists` distinguishes presence). -/
structure StoredTransaction where
  id : ℕ
  userId : String
  createdAt : ℤ
  receiptData : Option ReceiptData
  deriving DecidableEq, Repr

/-- Pagination metadata of the history response. -/
structure Pagination where
  page : ℕ
  limit : ℕ
  totalCount : ℕ
  totalPages : ℕ
  hasNext : Bool
  hasPrev : Bool
  deriving DecidableEq, Repr

/-- History response: status, flags and the returned documents. -/
structure HistoryResult where
  status : ℕ
  success : Bool
  message : String
  data : List StoredTransaction
  pagination : Option Pagination
  deriving DecidableEq, Repr

/-- Comparator of the `createdAt` descending sort. -/
def createdDesc (a b : StoredTransaction) : Bool := b.createdAt ≤ a.createdAt

/-- Embedding of `Math.ceil(totalCount / limit)` with JS real division. -/
def jsCeilDiv (a b : ℕ) : ℕ := (Int.ceil ((a : ℚ) / (b : ℚ))).toNat

/-- Embedding of `getReceiptHistory(req, res)` of receiptController.js over a
database modelled as the list of persisted documents; `page` and
`limit` arrive already through `parseInt`. -/
def getReceiptHistory (env : Env) (db : List StoredTransaction) (userId : Option String)
    (page limit : ℕ) : HistoryResult :=
  match userId with
  | none => ⟨400, false, "Valid user ID is required", [], none⟩
  | some u =>
    if u == "" || !env.isValidObjectId u then
      ⟨400, false, "Valid user ID is required", [], none⟩
    else
      let skip := (page - 1) * limit
      let filtered := db.filter (fun t => t.userId == u && t.receiptData.isSome)
      let sorted := filtered.mergeSort createdDesc
      let items := (sorted.drop skip).take limit
      let totalCount := filtered.length
      let totalPages := jsCeilDiv totalCount limit
      ⟨200, true, "Receipt history retrieved successfully", items,
        some ⟨page, limit, totalCount, totalPages,
          decide (page < totalPages), decide (1 < page)⟩⟩

/-- A permissive host environment for concrete runs: every ObjectId is
valid, no date string is host-parseable, the store accepts every
write. -/
def env0 : Env :=
  { parseDate := fun _ => none
    now := 0
    isValidObjectId := fun _ => true
    save := fun _ => .ok }

/-- A concrete uploaded-file descriptor. -/
def f0 : FileInfo :=
  { path := "/tmp/receipts/r1.jpg", filename := "r1.jpg",
    originalname := "orig.jpg", size := 100 }

/-- A filesystem holding exactly the uploaded file. -/
def fs0 : List String := ["/tmp/receipts/r1.jpg"]

/-- A host environment whose clock reads 1000 and whose date parser
accepts nothing. -/
def env1000 : Env :=
  { parseDate := fun _ => none
    now := 1000
    isValidObjectId := fun _ => true
    save := fun _ => .ok }

/-- A host environment that parses exactly the date string
`2024-03-01`. -/
def envDate : Env :=
  { parseDate := fun s => if s == "2024-03-01" then some 1709251200000 else none
    now := 0
    isValidObjectId := fun _ => true
    save := fun _ => .ok }

/-- Payload carrying both a total and an amount-paid figure. -/
def dAmountBoth : OCRData := { emptyOCR with amount_paid := .vnum 5, total := .vnum 10 }

/-- Payload whose date field holds a string no host can parse. -/
def dBadDate : OCRData := { emptyOCR with date := .vstr "notadate" }

/-- Membership-based category resolution, following the spec's words:
keep the extracted category exactly when it belongs to the expense
enumeration, otherwise fall back. -/
def specResolveCategory (cat : JVal) : String :=
  match cat with
  | .vstr s => if s ∈ expenseSubclasses then s else "other_expenses"
  | _ => "other_expenses"

lemma contains_iff_mem_str (l : List String) (s : String) :
    l.contains s = true ↔ s ∈ l := by
  simp [List.contains_iff_exists_mem_beq]

/-- C5: the normalized transaction's category equals the extracted
category exactly when that category is a member of the expense-category
enumeration, and is the fixed fallback `other_expenses` otherwise (the
code's truthiness guard never disagrees with membership because no
member of the enumeration is the empty string). -/
theorem convert_subclass_eq_specResolveCategory (env : Env) (d : OCRData) (u : String) :
    (convertOCRToTransaction env d u).subclass = specResolveCategory d.category := by
  cases hc : d.category with
  | undef => simp [convertOCRToTransaction, specResolveCategory, hc]
  | vnum q => simp [convertOCRToTransaction, specResolveCategory, hc]
  | vstr s =>
    simp only [convertOCRToTransaction, specResolveCategory, hc]
    by_cases hs : s ∈ expenseSubclasses
    · have hne : s ≠ "" := by
        have hs' := hs
        simp only [expenseSubclasses, List.mem_cons, List.not_mem_nil, or_false] at hs'
        rcases hs' with rfl | rfl <;> decide
      simp [hs, (contains_iff_mem_str _ _).2 hs, bne_iff_ne, hne]
    · have : expenseSubclasses.contains s = false := by
        rcases h : expenseSubclasses.contains s with _ | _
        · rfl
        · exact absurd ((contains_iff_mem_str _ _).1 h) hs
      simp [hs, this]

/-- C2 (amended): the normalized amount is the amount-paid field parsed
as a floating value whenever that field is truthy; the total is used
only when amount-paid is absent or falsy, and 0 when both are. -/
theorem convert_amount_priority (env : Env) (d : OCRData) (u : String) :
    (truthy d.amount_paid = true →
      (convertOCRToTransaction env d u).amount = parseFloat d.amount_paid) ∧
    (truthy d.amount_paid = false → truthy d.total = true →
      (convertOCRToTransaction env d u).amount = parseFloat d.total) ∧
    (truthy d.amount_paid = false → truthy d.total = false →
      (convertOCRToTransaction env d u).amount = some 0) := by
  refine ⟨fun h1 => ?_, fun h1 h2 => ?_, fun h1 h2 => ?_⟩ <;>
    simp [convertOCRToTransaction, jsOr, h1, parseFloat] <;>
    simp [h2, parseFloat]

/-- C2 witness: with only a total present, the amount is the parsed
total. -/
theorem convert_amount_priority_witness :
    (convertOCRToTransaction env0 { emptyOCR with total := .vnum 42 } "u1").amount
      = parseFloat { emptyOCR with total := JVal.vnum 42 }.total :=
  (convert_amount_priority env0 { emptyOCR with total := .vnum 42 } "u1").2.1
    (by decide) (by decide)

/-- C2 counterexample: when the payload carries both figures
(total 10, amount-paid 5), the normalized amount is the amount-paid
figure, not the extracted total — the code reads
`ocrData.amount_paid || ocrData.total`, giving amount-paid priority. -/
theorem convert_amount_total_cex :
    dAmountBoth.total ≠ JVal.undef ∧
    parseFloat dAmountBoth.total = some 10 ∧
    (convertOCRToTransaction env0 dAmountBoth "u1").amount ≠ some 10 ∧
    (convertOCRToTransaction env0 dAmountBoth "u1").amount = parseFloat dAmountBoth.amount_paid := by
  refine ⟨by decide, by decide, by decide, by decide⟩

/-- C8 (amended): a truthy date string is handed to the host date
parser — a parseable one yields that instant, an unparseable one yields
an Invalid Date (not the processing instant); the moment of processing
is used only when the date field is absent or falsy. -/
theorem convert_date_resolution (env : Env) (d : OCRData) (u : String) :
    (∀ s t, d.date = .vstr s → s ≠ "" → env.parseDate s = some t →
      (convertOCRToTransaction env d u).date = .valid t) ∧
    (∀ s, d.date = .vstr s → s ≠ "" → env.parseDate s = none →
      (convertOCRToTransaction env d u).date = .invalid) ∧
    (truthy d.date = false →
      (convertOCRToTransaction env d u).date = .valid env.now) := by
  refine ⟨fun s t hd hne hp => ?_, fun s hd hne hp => ?_, fun h => ?_⟩
  · simp [convertOCRToTransaction, jsOr, truthy, hd, bne_iff_ne, hne, newDate, hp]
  · simp [convertOCRToTransaction, jsOr, truthy, hd, bne_iff_ne, hne, newDate, hp]
  · simp [convertOCRToTransaction, jsOr, h, newDate, Rat.num_intCast, Rat.den_intCast,
      Int.tdiv_one]

/-- C8 witness: a parseable extracted date is kept. -/
theorem convert_date_resolution_witness :
    (convertOCRToTransaction envDate { emptyOCR with date := .vstr "2024-03-01" } "u1").date
      = JSDate.valid 1709251200000 :=
  (convert_date_resolution envDate { emptyOCR with date := .vstr "2024-03-01" } "u1").1
    "2024-03-01" 1709251200000 rfl (by decide) (by decide)

/-- C8 counterexample: a present but unparseable date string produces
an Invalid Date, not the moment of processing (the claim's
"otherwise"). -/
theorem convert_date_cex :
    dBadDate.date ≠ JVal.undef ∧
    (convertOCRToTransaction env1000 dBadDate "u1").date = JSDate.invalid ∧
    (convertOCRToTransaction env1000 dBadDate "u1").date ≠ JSDate.valid env1000.now := by
  refine ⟨by decide, by decide, by decide⟩

/-- The predicate present-and-parseable-as-a-non-negative-number: the
post-condition wording for an amount field. -/
def presentNonneg (v : JVal) : Bool :=
  v != .undef &&
    (match parseFloat v with
     | some q => decide (0 ≤ q)
     | none => false)

/-- Payload whose only amount figure is a negative total. -/
def dNegTotal : OCRData := { emptyOCR with total := .vnum (-5) }

lemma handleCatch_spec (e : JSError) (file : Option FileInfo) (fs : List String) :
    (handleCatch e file fs).fs = cleanupFile file fs ∧
    (handleCatch e file fs).saved = [] ∧
    (handleCatch e file fs).resp.success = false ∧
    (handleCatch e file fs).resp.status ≠ 201 := by
  unfold handleCatch
  split_ifs <;> simp

lemma not_mem_erase_self (fs : List String) (p : String) (hnd : fs.Nodup) :
    p ∉ fs.erase p := by
  intro hmem
  rw [List.Nodup.mem_erase_iff hnd] at hmem
  exact hmem.1 rfl

/-- C10: a payload whose total is the number 0 (amount-paid absent or
0) is rejected with the 400 `Could not extract amount` response and
nothing is persisted, even though a present, non-negative numeric
amount was supplied — the presence check is JS truthiness, and 0 is
falsy. -/
theorem zero_total_rejected (env : Env) (u : String) (f : FileInfo) (fs : List String)
    (d : OCRData)
    (hu : (u == "" || !env.isValidObjectId u) = false)
    (ht : d.total = .vnum 0)
    (hap : d.amount_paid = .undef ∨ d.amount_paid = .vnum 0) :
    (processReceiptAndCreateTransaction env (some u) (some f) (.parsed d) fs).resp.status = 400 ∧
    (processReceiptAndCreateTransaction env (some u) (some f) (.parsed d) fs).resp.message
      = "Could not extract amount from receipt" ∧
    (processReceiptAndCreateTransaction env (some u) (some f) (.parsed d) fs).saved = [] ∧
    (processReceiptAndCreateTransaction env (some u) (some f) (.parsed d) fs).fs = fs ∧
    presentNonneg d.total = true := by
  have htr : truthy d.total = false := by rw [ht]; decide
  have hatr : truthy d.amount_paid = false := by
    rcases hap with h | h <;> rw [h] <;> decide
  have h5 : presentNonneg d.total = true := by rw [ht]; decide
  refine ⟨?_, ?_, ?_, ?_, h5⟩ <;>
    simp [processReceiptAndCreateTransaction, hu, runOCRScript, hatr, htr]

/-- C10 witness: the concrete zero-total payload is rejected with the
400 response. -/
theorem zero_total_rejected_witness :
    (processReceiptAndCreateTransaction env0 (some "u1") (some f0)
        (.parsed { emptyOCR with total := .vnum 0 }) fs0).resp.status = 400 ∧
    presentNonneg { emptyOCR with total := JVal.vnum 0 }.total = true := by
  have h := zero_total_rejected env0 "u1" f0 fs0 { emptyOCR with total := .vnum 0 }
    (by decide) rfl (Or.inl rfl)
  exact ⟨h.1, h.2.2.2.2⟩

/-- C4 (amended): exit-0 payloads with neither a truthy total nor a
truthy amount-paid field fail with the 400 `Could not extract amount`
response and nothing is persisted; presence is tested by JS truthiness,
not by parseability as a non-negative number, so a truthy but negative
or non-numeric amount passes the check. -/
theorem incomplete_extraction_rejected (env : Env) (u : String) (f : FileInfo)
    (fs : List String) (d : OCRData)
    (hu : (u == "" || !env.isValidObjectId u) = false)
    (hap : truthy d.amount_paid = false) (ht : truthy d.total = false) :
    (processReceiptAndCreateTransaction env (some u) (some f) (.parsed d) fs).resp
      = ⟨400, false, "Could not extract amount from receipt"⟩ ∧
    (processReceiptAndCreateTransaction env (some u) (some f) (.parsed d) fs).saved = [] := by
  constructor <;> simp [processReceiptAndCreateTransaction, hu, runOCRScript, hap, ht]

/-- C4 witness: the spec's incomplete-extraction scenario (merchant
only, no amount) yields the 400 response and persists nothing. -/
theorem incomplete_extraction_rejected_witness :
    (processReceiptAndCreateTransaction env0 (some "u1") (some f0)
        (.parsed { emptyOCR with merchant := .vstr "Cafe X" }) fs0).resp
      = ⟨400, false, "Could not extract amount from receipt"⟩ ∧
    (processReceiptAndCreateTransaction env0 (some "u1") (some f0)
        (.parsed { emptyOCR with merchant := JVal.vstr "Cafe X" }) fs0).saved = [] :=
  incomplete_extraction_rejected env0 "u1" f0 fs0
    { emptyOCR with merchant := .vstr "Cafe X" } (by decide) (by decide) (by decide)

/-- C4 counterexample: a payload whose only figure is the truthy but
negative total −5 carries no field that is present and parseable as a
non-negative number, yet it passes the presence check and is persisted
with status 201 instead of failing with the 400 incomplete-extraction
response. -/
theorem negative_total_persists_cex :
    presentNonneg dNegTotal.total = false ∧
    presentNonneg dNegTotal.amount_paid = false ∧
    (processReceiptAndCreateTransaction env0 (some "u1") (some f0)
        (.parsed dNegTotal) fs0).resp.status = 201 ∧
    (processReceiptAndCreateTransaction env0 (some "u1") (some f0)
        (.parsed dNegTotal) fs0).saved ≠ [] := by
  refine ⟨by decide, by decide, by decide, by decide⟩

/-- C1 (amended): every failure that surfaces as a thrown error —
extraction launch failure, non-zero subprocess exit, malformed stdout,
persistence rejection — reaches the catch block, which deletes the
uploaded file; the incomplete-extraction 400 return is the one failure
path that leaves the file in place. -/
theorem cleanup_on_thrown_failure (env : Env) (u : String) (f : FileInfo)
    (ocr : OCROutcome) (fs : List String)
    (hu : (u == "" || !env.isValidObjectId u) = false)
    (hp : f.path ≠ "") (hnd : fs.Nodup)
    (hfail : (∃ m, ocr = .launchErrorEvent m) ∨ (∃ c s, ocr = .exitNonZero c s) ∨
      (∃ m, ocr = .stdoutUnparseable m) ∨
      (∃ d n m, ocr = .parsed d ∧
        (!truthy d.amount_paid && !truthy d.total) = false ∧
        env.save (buildTransaction env d u f) = .err n m)) :
    f.path ∉ (processReceiptAndCreateTransaction env (some u) (some f) ocr fs).fs ∧
    (processReceiptAndCreateTransaction env (some u) (some f) ocr fs).saved = [] ∧
    (processReceiptAndCreateTransaction env (some u) (some f) ocr fs).resp.success = false := by
  have hclean : cleanupFile (some f) fs = fs.erase f.path := by
    simp [cleanupFile, bne_iff_ne, hp]
  have hgoal : ∀ e : JSError,
      f.path ∉ (handleCatch e (some f) fs).fs ∧
      (handleCatch e (some f) fs).saved = [] ∧
      (handleCatch e (some f) fs).resp.success = false := by
    intro e
    obtain ⟨h1, h2, h3, _⟩ := handleCatch_spec e (some f) fs
    refine ⟨?_, h2, h3⟩
    rw [h1, hclean]
    exact not_mem_erase_self fs f.path hnd
  rcases hfail with ⟨m, rfl⟩ | ⟨c, s, rfl⟩ | ⟨m, rfl⟩ | ⟨d, n, m, rfl, hck, hsv⟩
  · simpa [processReceiptAndCreateTransaction, hu, runOCRScript] using hgoal _
  · simpa [processReceiptAndCreateTransaction, hu, runOCRScript] using hgoal _
  · simpa [processReceiptAndCreateTransaction, hu, runOCRScript] using hgoal _
  · simpa [processReceiptAndCreateTransaction, hu, runOCRScript, hck, hsv] using hgoal _

/-- C1 witness: a concrete launch failure leaves no trace of the
uploaded file and persists nothing. -/
theorem cleanup_on_thrown_failure_witness :
    f0.path ∉ (processReceiptAndCreateTransaction env0 (some "u1") (some f0)
      (.launchErrorEvent "ENOENT") fs0).fs ∧
    (processReceiptAndCreateTransaction env0 (some "u1") (some f0)
      (.launchErrorEvent "ENOENT") fs0).saved = [] ∧
    (processReceiptAndCreateTransaction env0 (some "u1") (some f0)
      (.launchErrorEvent "ENOENT") fs0).resp.success = false :=
  cleanup_on_thrown_failure env0 "u1" f0 (.launchErrorEvent "ENOENT") fs0
    (by decide) (by decide) (by decide) (Or.inl ⟨"ENOENT", rfl⟩)

/-- C1 counterexample: an incomplete-extraction failure (exit 0, no
amount fields) returns 400 without reaching the catch block, so the
uploaded temporary file still exists when the call returns — an
orphaned file on a failure path. -/
theorem orphan_on_incomplete_cex :
    (processReceiptAndCreateTransaction env0 (some "u1") (some f0)
        (.parsed emptyOCR) fs0).resp.status = 400 ∧
    (processReceiptAndCreateTransaction env0 (some "u1") (some f0)
        (.parsed emptyOCR) fs0).resp.success = false ∧
    (processReceiptAndCreateTransaction env0 (some "u1") (some f0)
        (.parsed emptyOCR) fs0).saved = [] ∧
    f0.path ∈ (processReceiptAndCreateTransaction env0 (some "u1") (some f0)
        (.parsed emptyOCR) fs0).fs := by
  refine ⟨by decide, by decide, by decide, by decide⟩

lemma success_run_inv (env : Env) (userId : Option String) (file : Option FileInfo)
    (ocr : OCROutcome) (fs : List String)
    (h : (processReceiptAndCreateTransaction env userId file ocr fs).resp.status = 201) :
    ∃ u f d, userId = some u ∧ file = some f ∧ ocr = .parsed d ∧
      processReceiptAndCreateTransaction env userId file ocr fs =
        ⟨⟨201, true, "Receipt successfully processed and expense transaction created"⟩,
          fs, [buildTransaction env d u f]⟩ := by
  cases userId with
  | none => simp [processReceiptAndCreateTransaction] at h
  | some u =>
    cases hu : (u == "" || !env.isValidObjectId u) with
    | true => simp [processReceiptAndCreateTransaction, hu] at h
    | false =>
      cases file with
      | none => simp [processReceiptAndCreateTransaction, hu] at h
      | some f =>
        cases ocr with
        | launchErrorEvent m =>
          simp [processReceiptAndCreateTransaction, hu, runOCRScript] at h
          exact absurd h (handleCatch_spec _ _ _).2.2.2
        | exitNonZero c s =>
          simp [processReceiptAndCreateTransaction, hu, runOCRScript] at h
          exact absurd h (handleCatch_spec _ _ _).2.2.2
        | stdoutUnparseable m =>
          simp [processReceiptAndCreateTransaction, hu, runOCRScript] at h
          exact absurd h (handleCatch_spec _ _ _).2.2.2
        | parsed d =>
          cases hck : (!truthy d.amount_paid && !truthy d.total) with
          | true => simp [processReceiptAndCreateTransaction, hu, runOCRScript, hck] at h
          | false =>
            cases hsv : env.save (buildTransaction env d u f) with
            | ok =>
              refine ⟨u, f, d, rfl, rfl, rfl, ?_⟩
              simp [processReceiptAndCreateTransaction, hu, runOCRScript, hck, hsv]
            | err n m =>
              simp [processReceiptAndCreateTransaction, hu, runOCRScript, hck, hsv] at h
              exact absurd h (handleCatch_spec _ _ _).2.2.2

/-- C3: a run that answers 201 persisted exactly one transaction,
whose kind is `expense` and whose receipt-provenance block is
non-null. -/
theorem success_persists_expense (env : Env) (userId : Option String)
    (file : Option FileInfo) (ocr : OCROutcome) (fs : List String)
    (h : (processReceiptAndCreateTransaction env userId file ocr fs).resp.status = 201) :
    ∃ t, (processReceiptAndCreateTransaction env userId file ocr fs).saved = [t] ∧
      t.type = "expense" ∧ t.receiptData.isSome = true := by
  obtain ⟨u, f, d, -, -, -, heq⟩ := success_run_inv env userId file ocr fs h
  exact ⟨buildTransaction env d u f, by rw [heq], rfl, rfl⟩

/-- C3 witness: a concrete successful ingestion (total 42) persists
exactly one expense transaction with provenance. -/
theorem success_persists_expense_witness :
    ∃ t, (processReceiptAndCreateTransaction env0 (some "u1") (some f0)
        (.parsed { emptyOCR with total := .vnum 42 }) fs0).saved = [t] ∧
      t.type = "expense" ∧ t.receiptData.isSome = true :=
  success_persists_expense env0 (some "u1") (some f0)
    (.parsed { emptyOCR with total := .vnum 42 }) fs0 (by decide)

/-- C6: on a 201 response the filesystem is exactly as before the call
— in particular the uploaded file still exists — and the persisted
transaction's provenance block carries the upload's storage path as
`filePath`. -/
theorem success_frame (env : Env) (u : String) (f : FileInfo) (ocr : OCROutcome)
    (fs : List String) (hmem : f.path ∈ fs)
    (h : (processReceiptAndCreateTransaction env (some u) (some f) ocr fs).resp.status = 201) :
    (processReceiptAndCreateTransaction env (some u) (some f) ocr fs).fs = fs ∧
    f.path ∈ (processReceiptAndCreateTransaction env (some u) (some f) ocr fs).fs ∧
    ∃ t rd, (processReceiptAndCreateTransaction env (some u) (some f) ocr fs).saved = [t] ∧
      t.receiptData = some rd ∧ rd.filePath = some f.path := by
  obtain ⟨u', f', d, hu', hf', -, heq⟩ := success_run_inv env (some u) (some f) ocr fs h
  obtain rfl : u' = u := (Option.some.inj hu').symm
  obtain rfl : f' = f := (Option.some.inj hf').symm
  rw [heq]
  exact ⟨rfl, hmem, _, _, rfl, rfl, rfl⟩

/-- C6 witness: the concrete successful run keeps the uploaded file and
records its path in the provenance block. -/
theorem success_frame_witness :
    (processReceiptAndCreateTransaction env0 (some "u1") (some f0)
        (.parsed { emptyOCR with total := .vnum 42 }) fs0).fs = fs0 ∧
    f0.path ∈ (processReceiptAndCreateTransaction env0 (some "u1") (some f0)
        (.parsed { emptyOCR with total := .vnum 42 }) fs0).fs ∧
    ∃ t rd, (processReceiptAndCreateTransaction env0 (some "u1") (some f0)
        (.parsed { emptyOCR with total := JVal.vnum 42 }) fs0).saved = [t] ∧
      t.receiptData = some rd ∧ rd.filePath = some f0.path :=
  success_frame env0 "u1" f0 (.parsed { emptyOCR with total := .vnum 42 }) fs0
    (by decide) (by decide)

/-- The substring the catch block tests for. -/
def pyMarker : List Char := ("Python script failed").data

lemma startsWithL_append_of_le (xs ys zs : List Char)
    (hlen : zs.length ≤ xs.length) (hsw : startsWithL xs zs = false) :
    startsWithL (xs ++ ys) zs = false := by
  induction zs generalizing xs with
  | nil => simp [startsWithL] at hsw
  | cons b zt ih =>
    cases xs with
    | nil => simp at hlen
    | cons a xt =>
      simp only [List.cons_append, startsWithL] at hsw ⊢
      cases hab : (a == b) with
      | false => simp [hab]
      | true =>
        simp only [hab, Bool.true_and] at hsw ⊢
        exact ih xt (by simpa using hlen) hsw

lemma hasSubstrL_append_no_head (xs ys : List Char)
    (hx : ∀ c ∈ xs, (c == 'P') = false)
    (hy : hasSubstrL ys pyMarker = false) :
    hasSubstrL (xs ++ ys) pyMarker = false := by
  induction xs with
  | nil => simpa using hy
  | cons a xt ih =>
    have ha : (a == 'P') = false := hx a (List.mem_cons_self a xt)
    have hxt : ∀ c ∈ xt, (c == 'P') = false := fun c hc => hx c (List.mem_cons_of_mem a hc)
    simp only [List.cons_append, hasSubstrL]
    have h1 : startsWithL (a :: (xt ++ ys)) pyMarker = false := by
      have hm : pyMarker = 'P' :: ("ython script failed").data := rfl
      rw [hm]
      simp [startsWithL, ha]
    simp [h1, ih hxt]

lemma digitChar_ne_P (n : ℕ) : (digitChar n == 'P') = false := by
  have h10 : ∀ k, k < 10 → ((Char.ofNat (48 + k)) == 'P') = false := by decide
  exact h10 (n % 10) (Nat.mod_lt n (by omega))

lemma mem_natDigitsAux_ne_P (fuel : ℕ) :
    ∀ (n : ℕ) (acc : List Char), (∀ c ∈ acc, (c == 'P') = false) →
      ∀ c ∈ natDigitsAux fuel n acc, (c == 'P') = false := by
  induction fuel with
  | zero =>
    intro n acc hacc c hc
    simpa [natDigitsAux] using hacc c (by simpa [natDigitsAux] using hc)
  | succ fuel ih =>
    intro n acc hacc c hc
    simp only [natDigitsAux] at hc
    split at hc
    · rcases List.mem_cons.1 hc with rfl | hmem
      · exact digitChar_ne_P n
      · exact hacc c hmem
    · refine ih (n / 10) (digitChar n :: acc) ?_ c hc
      intro c' hc'
      rcases List.mem_cons.1 hc' with rfl | hmem
      · exact digitChar_ne_P n
      · exact hacc c' hmem

lemma mem_natDigits_ne_P (n : ℕ) : ∀ c ∈ natDigits n, (c == 'P') = false :=
  mem_natDigitsAux_ne_P (n + 1) n [] (by simp)

lemma ocrMsg_no_marker (code : ℕ) (stderr : String)
    (hs : strContains stderr "Python script failed" = false) :
    strContains ("Python OCR script failed with code " ++ natStr code ++ ": " ++ stderr)
      "Python script failed" = false := by
  have hdata : ("Python OCR script failed with code " ++ natStr code ++ ": " ++ stderr).data
      = ("Python OCR script failed with code ").data ++
          (natDigits code ++ ([':', ' '] ++ stderr.data)) := by
    simp only [String.data_append, List.append_assoc]
    rfl
  show hasSubstrL _ _ = false
  rw [hdata]
  have hbase : ("Python OCR script failed with code ").data
      = 'P' :: ("ython OCR script failed with code ").data := rfl
  rw [hbase, List.cons_append, hasSubstrL]
  rw [Bool.or_eq_false_iff]
  constructor
  · rw [← List.cons_append, ← hbase]
    exact startsWithL_append_of_le _ _ _ (by decide) (by decide)
  · apply hasSubstrL_append_no_head
    · decide
    · apply hasSubstrL_append_no_head
      · exact mem_natDigits_ne_P code
      · apply hasSubstrL_append_no_head
        · decide
        · exact hs

/-- C9 (amended): a non-zero subprocess exit whose stderr does not
itself contain the substring `Python script failed` is answered by the
generic 500 branch; the dedicated `Receipt OCR processing failed`
branch is reachable only through stderr carrying that substring,
because the built message text `Python OCR script failed with code N: `
never matches the test on its own. -/
theorem nonzero_exit_generic_branch (env : Env) (u : String) (f : FileInfo)
    (fs : List String) (code : ℕ) (stderr : String)
    (hu : (u == "" || !env.isValidObjectId u) = false)
    (hs : strContains stderr "Python script failed" = false) :
    (processReceiptAndCreateTransaction env (some u) (some f)
        (.exitNonZero code stderr) fs).resp
      = ⟨500, false, "Internal server error while processing receipt"⟩ := by
  have hmsg := ocrMsg_no_marker code stderr hs
  simp [processReceiptAndCreateTransaction, hu, runOCRScript, handleCatch, hmsg]

/-- C9 witness: the spec's tool-crash scenario (exit 1, stderr `model
unavailable`) takes the generic 500 branch. -/
theorem nonzero_exit_generic_branch_witness :
    (processReceiptAndCreateTransaction env0 (some "u1") (some f0)
        (.exitNonZero 1 "model unavailable") fs0).resp
      = ⟨500, false, "Internal server error while processing receipt"⟩ :=
  nonzero_exit_generic_branch env0 "u1" f0 fs0 1 "model unavailable"
    (by decide) (by decide)

/-- C9 counterexample: a run whose stderr is itself the string
`Python script failed` reaches the dedicated 500 branch, so that
branch is not unreachable and not every non-zero exit takes the
generic branch. -/
theorem nonzero_exit_dedicated_branch_cex :
    (processReceiptAndCreateTransaction env0 (some "u1") (some f0)
        (.exitNonZero 1 "Python script failed") fs0).resp
      = ⟨500, false, "Receipt OCR processing failed"⟩ := by
  decide

lemma createdDesc_trans : ∀ a b c : StoredTransaction,
    createdDesc a b = true → createdDesc b c = true → createdDesc a c = true := by
  intro a b c hab hbc
  simp only [createdDesc, decide_eq_true_eq] at hab hbc ⊢
  exact le_trans hbc hab

lemma createdDesc_total : ∀ a b : StoredTransaction,
    (createdDesc a b || createdDesc b a) = true := by
  intro a b
  simp only [createdDesc, Bool.or_eq_true, decide_eq_true_eq]
  exact le_total b.createdAt a.createdAt

lemma jsCeilDiv_eq (a b : ℕ) (hb : 1 ≤ b) : jsCeilDiv a b = (a + b - 1) / b := by
  have hb0 : 0 < b := hb
  set m := (a + b - 1) / b with hm
  have hkey : a + b - 1 < b * m + b := by
    calc a + b - 1 = b * m + (a + b - 1) % b := (Nat.div_add_mod (a + b - 1) b).symm
    _ < b * m + b := Nat.add_lt_add_left (Nat.mod_lt _ hb0) _
  have hub : a ≤ m * b := by
    have h2 : a + b - 1 < m * b + b := by rw [Nat.mul_comm m b]; exact hkey
    generalize m * b = t at h2 ⊢
    omega
  have hlb : m * b < a + b := by
    have h1 : m * b ≤ a + b - 1 := Nat.div_mul_le_self (a + b - 1) b
    generalize m * b = t at h1 ⊢
    omega
  have hbq : (0 : ℚ) < (b : ℚ) := by exact_mod_cast hb0
  have hceil : Int.ceil ((a : ℚ) / (b : ℚ)) = (m : ℤ) := by
    rw [Int.ceil_eq_iff]
    constructor
    · rw [lt_div_iff₀ hbq]
      have hlbq : (m : ℚ) * b < (a : ℚ) + b := by exact_mod_cast hlb
      have hexp : (((m : ℤ) : ℚ) - 1) * b = (m : ℚ) * b - b := by push_cast; ring
      rw [hexp]
      linarith
    · rw [div_le_iff₀ hbq]
      have hubq : (a : ℚ) ≤ (m : ℚ) * b := by exact_mod_cast hub
      push_cast
      linarith
  rw [jsCeilDiv, hceil, Int.toNat_natCast]

/-- C7: for a well-formed user identifier and pagination parameters
`page ≥ 1`, `limit ≥ 1`, the history query answers 200 with exactly the
user's receipt-bearing transactions, ordered by creation time
descending, pa  ge-sliced to `min limit (total − (page−1)·limit)`
records, and pagination metadata with `totalPages = ceil(total/limit)`,
`hasNext = (page < totalPages)` and `hasPrev = (page > 1)`. -/
theorem receipt_history_contract (env : Env) (db : List StoredTransaction) (u : String)
    (page limit : ℕ)
    (hu : (u == "" || !env.isValidObjectId u) = false)
    (hpage : 1 ≤ page) (hlimit : 1 ≤ limit) :
    (getReceiptHistory env db (some u) page limit).status = 200 ∧
    (∀ t ∈ (getReceiptHistory env db (some u) page limit).data,
      t.userId = u ∧ t.receiptData.isSome = true) ∧
    List.Pairwise (fun a b => b.createdAt ≤ a.createdAt)
      (getReceiptHistory env db (some u) page limit).data ∧
    (getReceiptHistory env db (some u) page limit).data.length
      = min limit
        ((db.filter (fun t => t.userId == u && t.receiptData.isSome)).length
          - (page - 1) * limit) ∧
    (getReceiptHistory env db (some u) page limit).pagination
      = some ⟨page, limit,
          (db.filter (fun t => t.userId == u && t.receiptData.isSome)).length,
          ((db.filter (fun t => t.userId == u && t.receiptData.isSome)).length + limit - 1)
            / limit,
          decide (page <
            ((db.filter (fun t => t.userId == u && t.receiptData.isSome)).length + limit - 1)
              / limit),
          decide (1 < page)⟩ := by
  have hperm := List.mergeSort_perm
    (db.filter (fun t => t.userId == u && t.receiptData.isSome)) createdDesc
  refine ⟨?_, ?_, ?_, ?_, ?_⟩
  · simp [getReceiptHistory, hu]
  · intro t ht
    simp only [getReceiptHistory, hu, Bool.false_eq_true, if_false] at ht
    have h1 : t ∈ (db.filter (fun t => t.userId == u && t.receiptData.isSome)).mergeSort
        createdDesc :=
      List.mem_of_mem_drop (List.mem_of_mem_take ht)
    have h2 := List.mem_filter.1 (hperm.mem_iff.1 h1)
    have h3 := h2.2
    rw [Bool.and_eq_true] at h3
    exact ⟨by simpa using h3.1, h3.2⟩
  · have hsort := List.sorted_mergeSort createdDesc_trans createdDesc_total
      (db.filter (fun t => t.userId == u && t.receiptData.isSome))
    have hsort' : List.Pairwise (fun a b => b.createdAt ≤ a.createdAt)
        ((db.filter (fun t => t.userId == u && t.receiptData.isSome)).mergeSort createdDesc) :=
      hsort.imp (fun h => by simpa [createdDesc, decide_eq_true_eq] using h)
    simp only [getReceiptHistory, hu, Bool.false_eq_true, if_false]
    exact List.Pairwise.sublist ((List.take_sublist _ _).trans (List.drop_sublist _ _)) hsort'
  · simp only [getReceiptHistory, hu, Bool.false_eq_true, if_false]
    rw [List.length_take, List.length_drop, hperm.length_eq]
  · simp only [getReceiptHistory, hu, Bool.false_eq_true, if_false]
    rw [jsCeilDiv_eq _ _ hlimit]

/-- One receipt-provenance block with every optional field absent. -/
def rdBare : ReceiptData :=
  { merchant := .undef, items := [], ocrConfidence := "unknown", extractedAt := 0 }

/-- Fifteen receipt-derived transactions of one user. -/
def db15 : List StoredTransaction :=
  (List.range 15).map (fun i => ⟨i, "u1", (i : ℤ), some rdBare⟩)

/-- C7 witness: the spec's pagination scenario — 15 receipt-derived
transactions, `page=2`, `limit=10` — returns 5 records with
`hasNext = false` and `hasPrev = true`. -/
theorem receipt_history_contract_witness :
    (getReceiptHistory env0 db15 (some "u1") 2 10).data.length = 5 ∧
    (getReceiptHistory env0 db15 (some "u1") 2 10).pagination
      = some ⟨2, 10, 15, 2, false, true⟩ := by
  have h := receipt_history_contract env0 db15 "u1" 2 10 (by decide) (by decide) (by decide)
  have hlen : (db15.filter (fun t => t.userId == "u1" && t.receiptData.isSome)).length = 15 := by
    decide
  constructor
  · rw [h.2.2.2.1, hlen]
    decide
  · rw [h.2.2.2.2, hlen]
    decide

end Receipt
